import Mathlib

/-!
Verification of the competitor-ad-warroom backend against its specification.

Each Python module of `src/backend/` is shallowly embedded:
* `database.py`  — the `ads` table rows, `upsert_ad`, `get_ads`, `get_stats`;
* `meta_api.py`  — `MetaAdLibraryClient.search_ads` / `get_page_id` /
  `validate_token`, with network outcomes as an oracle and the emitted
  sleep/request events as an explicit trace;
* `ai_analyzer.py` — `_call_ai`, `classify_ad`, `_fallback_batch_analysis`,
  `generate_weekly_brief`, with the external model as an oracle;
* `sample_data.py` — `generate_sample_ads`, with the random draws passed in
  explicitly.

Machine reals (Python floats) are modelled as rationals; `datetime` values as
rational POSIX timestamps (seconds), whole-day arithmetic as integers.
-/

namespace Warroom

/-! ## database.py — values and the `ads` schema

A SQLAlchemy row is a Python object whose column attributes `upsert_ad`
reads and writes dynamically (`hasattr`/`setattr`), so a row is embedded as a
total map from attribute name to a dynamic value; `hasattr` is membership in
the fixed column list of `AdRecord`. Column defaults applied by the database
at flush time are not modelled (no claim concerns them). -/

inductive Value where
  | vnone : Value
  | vstr : String → Value
  | vint : Int → Value
  | vbool : Bool → Value
deriving DecidableEq, Repr

/-- The column attributes of class `AdRecord` (database.py lines 25–66), in
declaration order. -/
def adSchemaFields : List String :=
  ["id", "page_name", "page_id", "brand_key", "competitor_name",
   "ad_body", "ad_title", "ad_description",
   "media_type", "publisher_platforms", "languages",
   "ad_creation_time", "ad_delivery_start_time", "ad_delivery_stop_time",
   "spend_lower", "spend_upper", "impressions_lower", "impressions_upper",
   "ad_snapshot_url", "theme", "is_active", "run_days", "is_top_performer",
   "is_sample", "ai_theme", "ai_sentiment", "ai_cta_type", "ai_angle",
   "fetched_at"]

/-- An `ads` row: attribute name → value. -/
def AdsRow : Type := String → Value

/-- A freshly constructed `AdRecord()` before any keyword is applied. -/
def emptyRow : AdsRow := fun _ => Value.vnone

/-- `setattr(r, k, v)`. -/
def rowSet (r : AdsRow) (k : String) (v : Value) : AdsRow :=
  fun k2 => if k2 = k then v else r k2

/-- The `for k, v in ad_data.items(): if hasattr(...): setattr(...)` loop of
`upsert_ad`'s update path; the insert path
`AdRecord(**{k: v for k, v in ad_data.items() if hasattr(AdRecord, k)})`
is the same fold started from `emptyRow`. -/
def applyData (r : AdsRow) : List (String × Value) → AdsRow
  | [] => r
  | kv :: rest =>
      applyData
        (if adSchemaFields.contains kv.1 then rowSet r kv.1 kv.2 else r) rest

/-- `ad_data["id"]`-style dict lookup (`none` = the key is absent, in which
case Python raises `KeyError`). -/
def dictGet (d : List (String × Value)) (k : String) : Option Value :=
  (d.find? (fun kv => kv.1 = k)).map (·.2)

/-- `db.query(AdRecord).filter_by(id=idv).first()` followed by either the
update-in-place of the first matching row or `db.add` of a new record
(database.py lines 115–128). -/
def upsertList (idv : Value) (d : List (String × Value)) :
    List AdsRow → List AdsRow
  | [] => [applyData emptyRow d]
  | r :: rs =>
      if r "id" = idv then applyData r d :: rs else r :: upsertList idv d rs

/-- `upsert_ad(db, ad_data)`; `none` models the `KeyError` Python raises when
`ad_data` has no `"id"` key. -/
def upsert_ad (db : List AdsRow) (d : List (String × Value)) :
    Option (List AdsRow) :=
  (dictGet d "id").map (fun idv => upsertList idv d db)

/-- Rows of `db` whose `id` column equals `idv`. -/
def idCount (db : List AdsRow) (idv : Value) : Nat :=
  (db.filter (fun r => decide (r "id" = idv))).length

/-! ## database.py — `get_ads` and `get_stats`

For the query operations a row is embedded as a structure over the columns
those operations read. Nullable columns are `Option`s; timestamps are
rational seconds (`datetime.utcnow().timestamp()` is a float). -/

structure AdRow where
  id : String := ""
  brand_key : Option String := none
  competitor_name : Option String := none
  media_type : Option String := none
  theme : Option String := none
  is_active : Option Bool := none
  is_top_performer : Option Bool := none
  ad_delivery_start_time : Option ℚ := none
deriving DecidableEq, Repr

/-- Python truthiness of an optional-string argument (`if brand_key:`):
`None` and `""` are falsy. -/
def truthyStr : Option String → Bool
  | none => false
  | some s => !(s == "")

/-- Python truthiness of an optional-int argument (`if days_back:`):
`None` and `0` are falsy. -/
def truthyInt : Option Int → Bool
  | none => false
  | some n => !(n == 0)

/-- One `q.filter(column == value)` step guarded by the argument's
truthiness; SQL `NULL == value` is not true, so `NULL` rows never match. -/
def filterStr (v : Option String) (col : AdRow → Option String)
    (l : List AdRow) : List AdRow :=
  if truthyStr v then l.filter (fun r => col r == v) else l

/-- The `if is_active is not None: q.filter(AdRecord.is_active == is_active)`
step: unlike the other filters, `False` is applied. -/
def filterActive (v : Option Bool) (l : List AdRow) : List AdRow :=
  match v with
  | some b => l.filter (fun r => r.is_active == some b)
  | none => l

/-- The `if days_back:` step: keep rows with
`ad_delivery_start_time >= utcfromtimestamp(now - days_back*86400)`
(a `NULL` start time never satisfies a SQL comparison). -/
def filterDays (v : Option Int) (now : ℚ) (l : List AdRow) : List AdRow :=
  if truthyInt v then
    l.filter (fun r =>
      match r.ad_delivery_start_time with
      | some t => decide ((now - (v.getD 0) * 86400) ≤ t)
      | none => false)
  else l

/-- `a ≤ b` on start times under SQLite ordering, where `NULL` sorts below
every value. -/
def optTimeLe : Option ℚ → Option ℚ → Bool
  | none, _ => true
  | some _, none => false
  | some x, some y => decide (x ≤ y)

/-- Insert `x` into a list already in descending start-time order. -/
def insertDesc (x : AdRow) : List AdRow → List AdRow
  | [] => [x]
  | y :: ys =>
      if optTimeLe y.ad_delivery_start_time x.ad_delivery_start_time then
        x :: y :: ys
      else y :: insertDesc x ys

/-- `ORDER BY ad_delivery_start_time DESC` (ties and the relative order of
equal keys are unspecified in SQL; this sort realizes one permitted order). -/
def sortByStartDesc (l : List AdRow) : List AdRow := l.foldr insertDesc []

/-- `get_ads(db, brand_key, competitor_name, media_type, theme, is_active,
days_back, limit)` (database.py lines 131–155); `now` is
`datetime.utcnow().timestamp()` at query time. -/
def get_ads (db : List AdRow)
    (brand_key competitor_name media_type theme : Option String := none)
    (is_active : Option Bool := none) (days_back : Option Int := none)
    (now : ℚ := 0) (limit : Nat := 200) : List AdRow :=
  ((sortByStartDesc
    (filterDays days_back now
      (filterActive is_active
        (filterStr theme AdRow.theme
          (filterStr media_type AdRow.media_type
            (filterStr competitor_name AdRow.competitor_name
              (filterStr brand_key AdRow.brand_key db))))))).take limit)

/-- The `q` of `get_stats`: the base query optionally brand-filtered; the
theme/competitor group-by queries use the equivalent
`filter(AdRecord.brand_key == brand_key if brand_key else True)`. -/
def brandFiltered (db : List AdRow) (brand_key : Option String) :
    List AdRow :=
  if truthyStr brand_key then db.filter (fun r => r.brand_key == brand_key)
  else db

/-- `GROUP BY col` with `func.count(AdRecord.id)`: one `(value, count)` pair
per distinct column value (first-occurrence order; SQL leaves group order
unspecified). -/
def groupCounts (col : AdRow → Option String) (db : List AdRow) :
    List (Option String × Nat) :=
  ((db.map col).dedup).map (fun v => (v, db.countP (fun r => col r == v)))

/-- The `if row[0]: counts[row[0]] = row[1]` loop: groups with a falsy key
(`NULL` or the empty string) are dropped. -/
def breakdownOf (col : AdRow → Option String) (db : List AdRow) :
    List (String × Nat) :=
  (groupCounts col db).filterMap (fun p =>
    match p.1 with
    | some s => if s = "" then none else some (s, p.2)
    | none => none)

structure Stats where
  total_ads : Nat
  active_ads : Nat
  top_performers : Nat
  media_breakdown : List (String × Nat)
  theme_breakdown : List (String × Nat)
  competitor_breakdown : List (String × Nat)
deriving DecidableEq, Repr

/-- `get_stats(db, brand_key)` (database.py lines 158–198). -/
def get_stats (db : List AdRow) (brand_key : Option String := none) :
    Stats :=
  let q := brandFiltered db brand_key
  { total_ads := q.length
    active_ads := q.countP (fun r => r.is_active == some true)
    top_performers := q.countP (fun r => r.is_top_performer == some true)
    media_breakdown :=
      ["IMAGE", "VIDEO", "CAROUSEL"].map (fun mt =>
        (mt, q.countP (fun r => r.media_type == some mt)))
    theme_breakdown := breakdownOf AdRow.theme (brandFiltered db brand_key)
    competitor_breakdown :=
      breakdownOf AdRow.competitor_name (brandFiltered db brand_key) }

/-! ## meta_api.py — `MetaAdLibraryClient`

Network interaction is an oracle: each method's single HTTP exchange is a
value describing what the network did. The exceptions `requests` raises —
connection errors and timeouts from `session.get`, `HTTPError` from
`raise_for_status`, and `JSONDecodeError` from `resp.json()` (a
`RequestException` subclass since requests 2.27) — are all
`RequestException`s, which is recorded in the `isRequestException` flag of a
raised error. The `time.sleep` and HTTP-request side effects are returned as
an explicit event trace. -/

/-- A parsed JSON response body of `/ads_archive`: its `data` list and
`paging` object (entries kept opaque) and its `error` payload when that key
is present. -/
structure ApiResponse where
  data : List String
  paging : List (String × String)
  error : Option String
deriving DecidableEq, Repr

/-- What the network did for one `session.get` + `raise_for_status` +
`resp.json()` sequence. -/
inductive HttpOutcome where
  | transportError (msg : String)
  | badStatus (msg : String)
  | badJson (msg : String)
  | success (resp : ApiResponse)
deriving DecidableEq, Repr

/-- An observable side effect of a client method. -/
inductive Event where
  | sleep (seconds : ℚ)
  | netCall (endpoint : String)
deriving DecidableEq, Repr

/-- `self.rate_limit_sleep = 1.0` (meta_api.py line 37). -/
def rate_limit_sleep : ℚ := 1

/-- A Python call result: a returned value, or an uncaught exception with
the flag of whether it is a `requests.exceptions.RequestException`. -/
inductive PyResult (α : Type) where
  | ok (val : α)
  | raised (isRequestException : Bool) (msg : String)
deriving DecidableEq, Repr

/-- The body of `search_ads`'s `try` block after the sleep: the request,
`raise_for_status`, and `resp.json()`, each failure a `RequestException`. -/
def tryRequestJson (o : HttpOutcome) : Except (Bool × String) ApiResponse :=
  match o with
  | .transportError m => .error (true, m)
  | .badStatus m => .error (true, m)
  | .badJson m => .error (true, m)
  | .success r => .ok r

/-- `search_ads` (meta_api.py lines 39–114): result and event trace. The
`except` clause catches exactly `requests.exceptions.RequestException`. -/
def search_ads (o : HttpOutcome) : PyResult ApiResponse × List Event :=
  let events := [Event.sleep rate_limit_sleep, Event.netCall "/ads_archive"]
  match tryRequestJson o with
  | .ok result =>
      if result.error.isSome then
        (.ok { data := [], paging := [], error := result.error }, events)
      else (.ok result, events)
  | .error e =>
      if e.1 then (.ok { data := [], paging := [], error := some e.2 }, events)
      else (.raised e.1 e.2, events)

/-- What the network did for `get_page_id`'s request: failure, or a parsed
body whose `data` list carries each entry's optional `"id"` field. -/
inductive PageOutcome where
  | fail (msg : String)
  | success (entries : List (Option String))
deriving DecidableEq, Repr

/-- `get_page_id` (meta_api.py lines 116–131): the first entry's id, or
`None` when the `data` list is absent/empty, the first entry has no id
(`KeyError`, caught by `except Exception`), or the call failed. -/
def get_page_id (o : PageOutcome) : Option String × List Event :=
  let events := [Event.sleep rate_limit_sleep, Event.netCall "/pages/search"]
  match o with
  | .fail _ => (none, events)
  | .success [] => (none, events)
  | .success (e :: _) => (e, events)

/-- What the network did for `validate_token`'s request: failure, or a
parsed body together with whether `"id" in data`. -/
inductive MeOutcome where
  | fail (msg : String)
  | success (hasId : Bool)
deriving DecidableEq, Repr

/-- `validate_token` (meta_api.py lines 176–187). Note: no
`time.sleep(self.rate_limit_sleep)` appears in its body. -/
def validate_token (o : MeOutcome) : Bool × List Event :=
  let events := [Event.netCall "/me"]
  match o with
  | .fail _ => (false, events)
  | .success hasId => (hasId, events)

/-- Every network call in the trace is immediately preceded by a sleep of
exactly `rate_limit_sleep` seconds. -/
def callsRateLimited : List Event → Bool
  | [] => true
  | Event.sleep s :: Event.netCall _ :: rest =>
      decide (s = rate_limit_sleep) && callsRateLimited rest
  | Event.sleep _ :: rest => callsRateLimited rest
  | Event.netCall _ :: _ => false

/-! ## ai_analyzer.py — `_call_ai` and `classify_ad`

The external Gemini call is an oracle (`AiOutcome`); `json.loads` is an
oracle too (`parse` parameters), constrained only by facts of the json
library that a proof needs (parsing the empty string raises). The Gemini
invocation itself is traced as an `AiEvent` so that "no call is made to the
model" is a statement about the trace. -/

inductive AiEvent where
  | modelCall
deriving DecidableEq, Repr

/-- What `model.generate_content(prompt)` did: raised, or returned a
response whose `.text` is the given optional string. -/
inductive AiOutcome where
  | failure (msg : String)
  | success (text : Option String)
deriving DecidableEq, Repr

/-- `_call_ai(prompt, system, max_tokens)` (ai_analyzer.py lines 25–47),
with `key` the `GEMINI_API_KEY` value (`""` when unset): returns the
completion text (`response.text or ""`) and the trace of model calls; an
empty key returns `""` with no call; a raised call is logged and yields
`""`. -/
def call_ai (key : String) (o : AiOutcome) : String × List AiEvent :=
  if key = "" then ("", [])
  else
    match o with
    | .failure _ => ("", [AiEvent.modelCall])
    | .success t => (t.getD "", [AiEvent.modelCall])

/-- Python `str.strip(chars)`: remove leading and trailing characters drawn
from the set `cs`. -/
def stripChars (cs : List Char) (s : String) : String :=
  String.mk
    (((s.toList.dropWhile (cs.contains ·)).reverse.dropWhile
      (cs.contains ·)).reverse)

/-- Python `str.strip()` (no argument): strip ASCII whitespace
`" \t\n\r\x0b\x0c"` (the templates produce no other Unicode whitespace). -/
def pyStripWs (s : String) : String :=
  stripChars [' ', '\t', '\n', '\r', '\x0b', '\x0c'] s

/-- `result.strip().strip("```json").strip("```").strip()` — the
markdown-fence stripping of `classify_ad` and `analyze_batch`. -/
def cleanedOf (result : String) : String :=
  pyStripWs (stripChars ['`']
    (stripChars ['`', 'j', 's', 'o', 'n'] (pyStripWs result)))

/-- The JSON object `classify_ad` expects from the model. -/
structure Classification where
  theme : String
  sentiment : String
  cta_type : String
  creative_angle : String
  has_price_mention : Bool
  has_social_proof : Bool
  has_expert_endorsement : Bool
deriving DecidableEq, Repr

/-- The fixed fallback object of `classify_ad` (ai_analyzer.py lines
80–88). -/
def fallbackClassification : Classification :=
  { theme := "unknown"
    sentiment := "unknown"
    cta_type := "unknown"
    creative_angle := "Could not analyze"
    has_price_mention := false
    has_social_proof := false
    has_expert_endorsement := false }

/-- `classify_ad(ad_body, ad_title, competitor, brand_category)`
(ai_analyzer.py lines 50–88). `parse` is the `json.loads` oracle (`none` =
it raised); the `except Exception` turns every parse failure into the fixed
fallback object, so the function is total — it never raises. The ad text
arguments only influence the prompt, which the oracle already absorbs. -/
def classify_ad (parse : String → Option Classification) (key : String)
    (o : AiOutcome) : Classification :=
  match parse (cleanedOf (call_ai key o).1) with
  | some c => c
  | none => fallbackClassification

/-! ## ai_analyzer.py — `_fallback_batch_analysis`

Input ads are Python dicts read with `ad.get(primary) or
ad.get(alternate, default)`; both key shapes (persisted schema and
underscore-prefixed sample schema) are fields here, `none` meaning the key
is absent. `Counter` is an insertion-ordered association list;
`most_common(1)[0]` is the first-encountered maximal entry (CPython's
`max`/`nlargest` keep the first maximum). Percentages
`round(count/total*100)` are evaluated in exact rational arithmetic with
Python's banker's rounding (the float evaluation can differ from the exact
one only at half-integers produced by rounding error, which no claim
exercises). -/

structure PyAd where
  competitor_name : Option String := none
  competitorAlt : Option String := none
  theme : Option String := none
  themeAlt : Option String := none
  media_type : Option String := none
  is_active : Option Bool := none
  isActiveAlt : Option Bool := none
  is_top_performer : Option Bool := none
  isTopAlt : Option Bool := none
  ad_body : Option String := none
deriving DecidableEq, Repr

/-- `ad.get(primary) or ad.get(alternate, default)` for string values: a
present, non-empty primary wins; otherwise the alternate if its key is
present, else the default. -/
def getStrOr (primary alt : Option String) (dflt : String) : String :=
  match primary with
  | some s => if s = "" then alt.getD dflt else s
  | none => alt.getD dflt

/-- `ad.get(primary) or ad.get(alternate, default)` for boolean values. -/
def getBoolOr (primary alt : Option Bool) (dflt : Bool) : Bool :=
  match primary with
  | some b => if b then true else alt.getD dflt
  | none => alt.getD dflt

/-- The per-ad theme, media type and competitor name as
`_fallback_batch_analysis` reads them (ai_analyzer.py lines 161–165). -/
def themeOfAd (ad : PyAd) : String := getStrOr ad.theme ad.themeAlt "unknown"

def mediaOfAd (ad : PyAd) : String := ad.media_type.getD "IMAGE"

def competitorOfAd (ad : PyAd) : String :=
  getStrOr ad.competitor_name ad.competitorAlt "unknown"

/-- `counter[k] += 1` on an insertion-ordered association list. -/
def bump : List (String × Nat) → String → List (String × Nat)
  | [], k => [(k, 1)]
  | (k2, n) :: rest, k =>
      if k2 = k then (k2, n + 1) :: rest else (k2, n) :: bump rest k

/-- `collections.Counter(keys)` in insertion order. -/
def counterOf (keys : List String) : List (String × Nat) :=
  keys.foldl bump []

/-- `counter.most_common(1)[0] if counter else dflt`: the first-encountered
entry of maximal count. -/
def mostCommon1 (l : List (String × Nat)) (dflt : String × Nat) :
    String × Nat :=
  match l with
  | [] => dflt
  | p :: rest => rest.foldl (fun best q => if best.2 < q.2 then q else best) p

/-- Python `round()` on an exact rational: round half to even. -/
def pyRound (q : ℚ) : ℤ :=
  if q - ⌊q⌋ < 1 / 2 then ⌊q⌋
  else if 1 / 2 < q - ⌊q⌋ then ⌊q⌋ + 1
  else if ⌊q⌋ % 2 = 0 then ⌊q⌋ else ⌊q⌋ + 1

/-- Python `str.title()` for ASCII text: uppercase each letter that follows
a non-letter, lowercase the rest. -/
def pyTitleAux : List Char → Bool → List Char
  | [], _ => []
  | c :: cs, prevCased =>
      if c.isAlpha then
        (if prevCased then c.toLower else c.toUpper) :: pyTitleAux cs true
      else c :: pyTitleAux cs false

def pyTitle (s : String) : String := String.mk (pyTitleAux s.toList false)

structure Insight where
  type : String
  title : String
  detail : String
  competitors_involved : List String
  urgency : String
  recommended_action : String
deriving DecidableEq, Repr

structure BatchAnalysis where
  insights : List Insight
  dominant_theme : String
  rising_theme : String
  underused_format : String
  top_spending_competitor : String
  summary_one_liner : String
deriving DecidableEq, Repr

/-- `round(count/total*100)` rendered for an f-string. -/
def pctOf (count total : Nat) : ℤ := pyRound ((count : ℚ) / (total : ℚ) * 100)

/-- The dominant-theme insight's `detail` f-string (ai_analyzer.py line
188), factored out so theorems can name it. -/
def dominantThemeDetail (pct : ℤ) (themeSpaced : String) : String :=
  s!"{pct}% of competitor ads use the '{themeSpaced}' approach. This is the default messaging strategy across the competitive set."

/-- `_fallback_batch_analysis(ads, brand_display)` (ai_analyzer.py lines
151–231). `list(all_formats - used_formats)[0]` iterates a CPython set,
whose order on strings is hash-dependent: this embedding fixes the
IMAGE, VIDEO, CAROUSEL order, which coincides with CPython whenever at most
one format is missing (the only case the spec speaks about). Division by a
zero `total` (empty `ads`) raises in Python; `analyze_batch` never calls
this on an empty list and the claims assume non-emptiness. -/
def fallback_batch_analysis (ads : List PyAd) (brand_display : String) :
    BatchAnalysis :=
  let themes := counterOf (ads.map themeOfAd)
  let media_types := counterOf (ads.map mediaOfAd)
  let competitors := counterOf (ads.map competitorOfAd)
  let top_performer_count := ads.countP (fun ad =>
    getBoolOr ad.is_top_performer ad.isTopAlt false)
  let total := ads.length
  let top_theme := mostCommon1 themes ("unknown", 0)
  let top_media := mostCommon1 media_types ("IMAGE", 0)
  let top_comp := mostCommon1 competitors ("unknown", 0)
  let used_formats := media_types.map Prod.fst
  let underused :=
    ["IMAGE", "VIDEO", "CAROUSEL"].filter (fun f => !used_formats.contains f)
  let underused_format := underused.headD "CAROUSEL"
  let themeName := top_theme.1
  let themeSpaced := themeName.replace "_" " "
  let themeTitled := pyTitle themeSpaced
  let themePct := pctOf top_theme.2 total
  let mediaName := top_media.1
  let mediaPct := pctOf top_media.2 total
  let compName := top_comp.1
  let compCount := top_comp.2
  let topPct := pctOf top_performer_count total
  let uf := underused_format
  let bd := brand_display
  { insights :=
      [{ type := "trend"
         title := s!"{themeTitled} Ads Dominate"
         detail := dominantThemeDetail themePct themeSpaced
         competitors_involved := [compName]
         urgency := "medium"
         recommended_action := s!"Test differentiating from this pattern — {bd} can stand out with a contrarian approach." },
       { type := "trend"
         title := s!"{mediaName} Is the Dominant Format"
         detail := s!"{mediaPct}% of all ads are {mediaName}s. This signals where competitors are investing creative budget."
         competitors_involved := (competitors.map Prod.fst).take 3
         urgency := "medium"
         recommended_action := s!"Ensure {bd} matches parity in {mediaName} production." },
       { type := "opportunity"
         title := s!"{uf} Ads Are an Untapped Gap"
         detail := s!"Competitors are underusing {uf} format. This is a creative whitespace for {bd} to own."
         competitors_involved := []
         urgency := "high"
         recommended_action := s!"Launch 2-3 {uf} ads immediately to claim this format advantage." },
       { type := "top_performer"
         title := s!"{top_performer_count} Long-Running Ads Detected"
         detail := s!"{top_performer_count} ads ({topPct}% of total) have been running 30+ days — these are likely top-performing creatives competitors are scaling."
         competitors_involved := [compName]
         urgency := "high"
         recommended_action := "Reverse-engineer these long-running creatives for themes that resonate with your shared audience." },
       { type := "warning"
         title := s!"{compName} Is Most Active"
         detail := s!"{compName} has the most ads in the competitive set ({compCount} tracked). They are likely outspending others in this period."
         competitors_involved := [compName]
         urgency := "high"
         recommended_action := s!"Monitor {compName}'s messaging closely — they may be testing a new campaign strategy." }]
    dominant_theme := themeName
    rising_theme := "ugc_testimonial"
    underused_format := uf
    top_spending_competitor := compName
    summary_one_liner := s!"{compName} leads activity with {themeSpaced} messaging dominating {themePct}% of creatives." }

/-! ## ai_analyzer.py — `generate_weekly_brief` -/

/-- Python's `needle in hay` on the character list of a string. -/
def subSeq (needle : List Char) : List Char → Bool
  | [] => needle.isEmpty
  | c :: rest => needle.isPrefixOf (c :: rest) || subSeq needle rest

/-- Python `needle in hay` for strings. -/
def strContains (hay needle : String) : Bool := subSeq needle.toList hay.toList

/-- `generate_weekly_brief(brand_key, brand_display, ads, analysis)`
(ai_analyzer.py lines 234–309): result text and the model-call trace.
`key`/`o` drive the embedded `_call_ai`; `nowDate` and `nowStamp` are the
two `datetime.now().strftime(...)` renderings. The `analysis.get(k, d)`
reads are field accesses: a `BatchAnalysis` carries every key the defaults
guard. `brand_key` is accepted and unused, as in the source. -/
def generate_weekly_brief (key : String) (brand_key brand_display : String)
    (ads : List PyAd) (analysis : BatchAnalysis) (o : AiOutcome)
    (nowDate nowStamp : String) : String × List AiEvent :=
  let bd := brand_display
  if ads.isEmpty then
    (s!"# Weekly Brief — {bd}\n\nNo competitor ad data available for this period.", [])
  else
    let total := ads.length
    let active := ads.countP (fun a => getBoolOr a.is_active a.isActiveAlt false)
    let top_performers := ads.countP (fun a =>
      getBoolOr a.is_top_performer a.isTopAlt false)
    let insights_text := String.intercalate "\n"
      ((analysis.insights.take 5).map (fun ins =>
        let t := ins.title
        let d := ins.detail
        s!"- {t}: {d}"))
    let dom := analysis.dominant_theme
    let ris := analysis.rising_theme
    let uf := analysis.underused_format
    let tc := analysis.top_spending_competitor
    let prompt := String.intercalate "\n"
      [s!"Write a weekly competitive intelligence brief for {bd}'s marketing team.",
       "",
       "DATA THIS WEEK:",
       s!"- Total competitor ads tracked: {total}",
       s!"- Active ads right now: {active}",
       s!"- Long-running top performers: {top_performers}",
       s!"- Dominant theme: {dom}",
       s!"- Rising theme: {ris}",
       s!"- Creative gap: {uf} format underused",
       s!"- Top active competitor: {tc}",
       "",
       "KEY AI INSIGHTS:",
       insights_text,
       "",
       "Write a brief with these exact sections:",
       "1. TL;DR (2 sentences max — the most important thing that happened this week)",
       "2. 🔥 What's Working for Competitors (2-3 specific observations)",
       "3. 📉 What's Declining or Stopping (1-2 observations)",
       "4. 💡 The Gap We Should Exploit (1 specific opportunity with rationale)",
       "5. 🎯 3 Actions for This Week (numbered, specific, each one sentence)",
       "6. One Surprise Finding (something unexpected that nobody would guess)",
       "",
       "Keep total length under 400 words. Write like a smart colleague, not a consultant."]
    let result := (call_ai key o).1
    let events := (call_ai key o).2
    if result = "" || strContains result.toLower "error" then
      let domSpaced := dom.replace "_" " "
      let activePct := if total ≠ 0 then pctOf active total else 0
      let brief := String.intercalate "\n"
        [s!"# Weekly Competitive Intelligence Brief — {bd}",
         s!"**Week of {nowDate}** | {total} ads tracked | {active} active",
         "",
         "## TL;DR",
         s!"Competitors are running {total} ads this week with {tc} leading activity. The {domSpaced} format is dominating across the competitive set.",
         "",
         "## 🔥 What's Working for Competitors",
         s!"- **UGC testimonials are everywhere** — {activePct}% of active ads use real customer stories, making authenticity the key creative strategy.",
         s!"- **Long-running ads reveal hits** — {top_performers} ads have been running 30+ days, signaling competitors found winning creatives they're scaling hard.",
         s!"- **{tc} is flooding feeds** with aggressive frequency across Facebook and Instagram simultaneously.",
         "",
         "## 📉 What's Declining",
         "- **Doctor/authority ads declining** — clinical tone is giving way to community storytelling as the dominant voice.",
         "",
         "## 💡 The Gap to Exploit",
         s!"**{uf} ads are nearly absent** from competitors' mix. This is an immediate whitespace for {bd} to claim ownable creative territory.",
         "",
         "## 🎯 3 Actions This Week",
         "1. Launch 2 UGC-style testimonial ads to match competitor parity in the dominant format.",
         s!"2. Create 1 {uf} ad to exploit the creative gap — no competitor is doing this.",
         "3. Study the 3 longest-running competitor ads and identify the hook that's keeping them alive.",
         "",
         "## One Surprise Finding",
         s!"{top_performers} ads have been running for over a month — at Meta's typical CPMs, that means these creatives have generated millions of impressions. Your competitors found something that works and are pouring budget into it. Find out what that hook is.",
         "",
         "---",
         s!"*Generated by Competitor Ad War Room • {nowStamp}*"]
      (brief, events)
    else
      (s!"# Weekly Competitive Intelligence Brief — {bd}\n**Week of {nowDate}**\n\n{result}\n\n---\n*Generated by Competitor Ad War Room • {nowStamp}*",
       events)

/-! ## sample_data.py — templates and `generate_sample_ads`

Randomness is an oracle: one `AdRand` per generated record carries the
results of that record's draws, each field constrained only by the
contract of the library call that produced it (`random.choice` /
`random.choices` return elements of their population — encoded as an index
reduced modulo the population size, resp. a `Fin`; `random.randint(a, b)`
returns an integer in `[a, b]` — a hypothesis where a claim needs it;
`random.sample(PLATFORMS, k)` returns a sublist — unconstrained here, no
claim reads it). `datetime` values are rational POSIX timestamps;
`timedelta(days=d)` is `d * 86400` seconds; the ISO rendering of the
timestamp fields is not modelled (timestamps are stored raw). -/

structure AdTemplate where
  theme : String
  bodies : List String
  titles : List String
deriving DecidableEq, Repr

def bebodywiseTemplates : List AdTemplate :=
  [{ theme := "ugc_testimonial"
     bodies :=
       ["I tried {product} for 3 months and honestly? My skin transformed 🌟 No filters needed anymore! #RealResults",
        "From acne-prone to glass skin in 60 days 😍 {product} changed everything. Link in bio!",
        "My mom asked me what I changed in my routine — I said {product} and nothing else 💕"]
     titles := ["{brand}: Real Women, Real Results", "Science-Backed Skincare That Actually Works"] },
   { theme := "doctor_authority"
     bodies :=
       ["Recommended by 10,000+ dermatologists across India. {product} — because your skin deserves science.",
        "Dermatologist formulated. Clinically tested. {brand} — skincare you can trust.",
        "Dr. Priya Sharma: 'This is the only serum I recommend to all my patients for hyperpigmentation.'"]
     titles := ["Clinically Proven Results", "Trusted by India's Top Dermatologists"] },
   { theme := "offer_promo"
     bodies :=
       ["🔥 FLAT 30% OFF on your first order! Use code GLOW30. Limited time only.",
        "Buy 2, Get 1 FREE on all {brand} bestsellers. Shop now before it's gone!",
        "₹499 starter kit — includes our top 3 sellers. Free shipping. 30-day return guarantee."]
     titles := ["Limited Time Offer", "Today Only: 30% Off Sitewide"] },
   { theme := "ingredient_science"
     bodies :=
       ["Niacinamide 10% + Zinc 1% — the gold standard combo for oily, acne-prone skin. Now in India.",
        "2% Salicylic Acid. No SLS. No Parabens. Just science that works. That's {brand}.",
        "Our Vitamin C serum has 15% L-Ascorbic Acid — 3x more potent than the leading brand."]
     titles := ["The Science of Beautiful Skin", "Ingredient Transparency Starts Here"] },
   { theme := "community_story"
     bodies :=
       ["1 million+ women in India have made the switch. Join the {brand} revolution 💪",
        "Our community of glowing women is growing every day. What's their secret? {product} 🌸",
        "From Bengaluru to Bhopal — women everywhere are choosing {brand}. Here's why."]
     titles := ["Join 1M+ Women", "India's Most-Loved Skincare Brand"] }]

def manmattersTemplates : List AdTemplate :=
  [{ theme := "ugc_testimonial"
     bodies :=
       ["I was losing 200+ strands a day. After 6 months on {product}, my barber noticed the difference 💪 #HairGrowth",
        "Honest review: {brand} actually worked for my hair fall. I was skeptical but the results speak for themselves.",
        "My confidence is back. {product} changed my hair and honestly my entire morning routine."]
     titles := ["{brand}: Real Men, Real Results", "Hair Loss Fixed? Here's How."] },
   { theme := "doctor_authority"
     bodies :=
       ["Board-certified dermatologists + a custom formula = {product}. Because hair fall deserves real treatment.",
        "Dr. Rahul Verma explains why {brand}'s 3-step system outperforms everything else on the market.",
        "Science says: DHT is the #1 cause of male pattern baldness. {brand} blocks it at the root."]
     titles := ["Doctor-Backed Hair Solutions", "Science of Hair Regrowth"] },
   { theme := "offer_promo"
     bodies :=
       ["🔥 Hair Kit + Free Consultation — just ₹999. 10,000 men already took this step.",
        "Festive Sale: 40% off our complete grooming range. Use GROOM40.",
        "First order? Get ₹500 off + FREE doctor consultation. Limited slots."]
     titles := ["Flat 40% Off — Today Only", "Start Your Hair Regrowth Journey"] },
   { theme := "before_after"
     bodies :=
       ["Arjun's before/after at 90 days 📸 This is what consistency with {product} looks like.",
        "3 months. 90 photos. 1 incredible result. {brand} hair regrowth kit — results that show.",
        "Watch the transformation 👇 From thinning to thick — this is {product} working."]
     titles := ["90 Days. Real Results.", "Before vs After: Judge for Yourself"] },
   { theme := "community_story"
     bodies :=
       ["500,000 men trust {brand} for their daily grooming. You should too.",
        "India's leading men's wellness platform — built by men, for men. That's {brand}.",
        "When 1 in 3 Indian men has hair loss, someone had to build a real solution. That's us."]
     titles := ["5L+ Men Trust Us", "India's #1 Men's Wellness Brand"] }]

def littlejoysTemplates : List AdTemplate :=
  [{ theme := "parent_reassurance"
     bodies :=
       ["As a mom, I only give my kids the safest. {product} — zero sugar, all nutrients, zero compromise.",
        "Priya's son went from picky eater to finishing his plate 😊 The secret? {product} daily.",
        "3 kids, 1 solution. {brand} kids' nutrition — because every child deserves the best start."]
     titles := ["{brand}: Trusted by 1M+ Indian Moms", "Nutrition Without Compromise"] },
   { theme := "pediatrician_authority"
     bodies :=
       ["Recommended by pediatricians across India. {product} — clinically proven for growing kids.",
        "Dr. Anjali Mehta, Pediatrician: '{brand} is what I give my own children every morning.'",
        "Formulated with ICMR guidelines for Indian children's nutritional needs. {brand}."]
     titles := ["Pediatrician Recommended", "Built on Child Nutrition Science"] },
   { theme := "offer_promo"
     bodies :=
       ["Back to school special: 25% off on {brand} nutrition packs. Free shipping above ₹500!",
        "Subscribe & Save: Get {product} every month + save ₹200 + free nutritionist consult.",
        "Summer pack: 3 months of {product} at 30% off. Keep your kids healthy all season."]
     titles := ["Back to School Sale!", "Subscribe & Save 25%"] },
   { theme := "ingredient_science"
     bodies :=
       ["DHA for brain. Calcium for bones. Iron for energy. All in one {product} serving for your child.",
        "No artificial colors. No preservatives. No palm oil. Just clean nutrition your kids will actually eat.",
        "Indian kids need 40% more iron than WHO guidelines. {brand} is built for Indian children."]
     titles := ["Science-Backed Kids Nutrition", "Clean Label. Real Nutrition."] },
   { theme := "ugc_testimonial"
     bodies :=
       ["My 7-year-old asks for {product} every morning now 🙌 That's how I know it works. Thank you {brand}!",
        "From skinny to strong in 4 months — {product} + regular meals changed everything for my son.",
        "Rahul's pediatrician was shocked at his growth. We've been on {brand} for 6 months."]
     titles := ["Real Kids. Real Growth.", "Parents Are Raving About This"] }]

def MEDIA_TYPES : List String := ["IMAGE", "VIDEO", "CAROUSEL"]

def PLATFORMS : List String :=
  ["facebook", "instagram", "messenger", "audience_network"]

def SPEND_RANGES : List (String × String) :=
  [("100", "499"), ("500", "999"), ("1000", "4999"), ("5000", "9999"),
   ("10000", "49999"), ("50000", "99999")]

def IMPRESSION_RANGES : List (String × String) :=
  [("1000", "4999"), ("5000", "9999"), ("10000", "49999"),
   ("50000", "99999"), ("100000", "499999"), ("500000", "999999")]

/-- The competitor-to-product-names lookup of `generate_sample_ads`
(sample_data.py lines 195–222), with its `.get` fallback. -/
def productNames (competitor_name : String) : List String :=
  match competitor_name with
  | "Pilgrim" => ["Vitamin C Serum", "SPF 50 Sunscreen", "AHA BHA Peel"]
  | "Mamaearth" => ["Onion Hair Oil", "Ubtan Face Pack", "Vitamin C Face Wash"]
  | "Dot & Key" => ["Waterlight Gel Moisturizer", "Vitamin C + E Serum", "Retinol Night Cream"]
  | "Plum Goodness" => ["Green Tea Mattifying Moisturizer", "E-Luminence Face Wash", "Grape Seed & Sea Buckthorn Oil"]
  | "Minimalist" => ["10% Niacinamide + Zinc", "2% Salicylic Acid", "Alpha Arbutin 2%"]
  | "WOW Skin Science" => ["Apple Cider Vinegar Shampoo", "Vitamin C Face Serum", "Onion Black Seed Hair Oil"]
  | "mCaffeine" => ["Coffee Body Scrub", "Caffeine Under Eye Cream", "Coffee Face Wash"]
  | "OZiva" => ["Protein & Herbs Women", "Plant-Based Biotin", "Holistic Nutrition Shake"]
  | "The Man Company" => ["Beard Growth Kit", "Anti-Acne Face Wash", "Daily Sunscreen SPF 50"]
  | "Bombay Shaving Company" => ["Charcoal Face Wash", "After Shave Balm", "Hair Serum for Men"]
  | "Beardo" => ["Beard Growth Serum", "Activated Charcoal Peel Mask", "Anti Hair Fall Shampoo"]
  | "USTRAA" => ["Hair Growth Vitalizer", "Activated Charcoal Face Scrub", "Sport Deodorant"]
  | "Traya Health" => ["Hair Ras", "Hair Vitamins", "Scalp Oil Treatment Kit"]
  | "Vedix" => ["Customized Hair Oil", "Herbal Shampoo Kit", "Vedix Hair Regrowth Kit"]
  | "BoldFit" => ["Whey Protein Gold", "Pre-Workout", "Multivitamin for Men"]
  | "Mamaearth Baby" => ["Gentle Cleansing Baby Shampoo", "Soothing Baby Lotion", "Baby Massage Oil"]
  | "Himalaya Baby" => ["Himalaya Baby Cream", "Gentle Baby Shampoo", "Baby Body Lotion"]
  | "Bey Bee" => ["Organic Baby Powder", "Natural Baby Wipes", "Baby Rash Cream"]
  | "Chicco India" => ["Natural Feeling Bottle", "Baby Snack Melties", "Baby Oatmeal Cereal"]
  | "Horlicks" => ["Horlicks Junior", "Mother's Horlicks", "Horlicks Protein+"]
  | "Complan" => ["Complan NutriGro", "Complan Chocolate", "Complan Power of 2"]
  | "Pediasure" => ["PediaSure Vanilla", "PediaSure Chocolate", "PediaSure 5+ Immunity"]
  | "The Moms Co" => ["Natural Baby Lotion", "Stretch Marks Oil", "Baby Body Butter"]
  | _ => ["Premium Product", "Best Seller", "New Launch"]

/-- The results of one loop iteration's random draws. -/
structure AdRand where
  templateIdx : Nat := 0
  productIdx : Nat := 0
  bodyIdx : Nat := 0
  titleIdx : Nat := 0
  mediaIdx : Fin 3 := 0
  daysAgoStart : Nat := 1
  activeRoll : Bool := true
  stopOffset : Nat := 7
  platformsPick : List String := ["facebook"]
  spendIdx : Fin 6 := 0
  imprIdx : Fin 6 := 0
deriving DecidableEq, Repr

/-- `random.choice(l)` with the drawn position encoded modulo `l.length`
(every element of a non-empty `l` is reachable, nothing else is). -/
def pyChoice {α : Type} (l : List α) (dflt : α) (i : Nat) : α :=
  l.getD (i % l.length) dflt

/-- `timedelta.days` of a difference of `q` seconds (floor division). -/
def timedeltaDays (q : ℚ) : ℤ := ⌊q / 86400⌋

/-- Python `int()` on a non-integer number: truncate toward zero. -/
def pyInt (q : ℚ) : ℤ := if 0 ≤ q then ⌊q⌋ else -⌊-q⌋

/-- One generated record (sample_data.py lines 253–278). Timestamp fields
hold the raw timestamps; the underscore-prefixed enrichment keys are the
`…Tag`/`…Flag` fields. -/
structure SampleAd where
  id : String
  page_name : String
  page_id : String
  ad_creation_time : ℚ
  ad_delivery_start_time : ℚ
  ad_delivery_stop_time : Option ℚ
  ad_creative_bodies : List String
  ad_creative_link_titles : List String
  ad_creative_link_descriptions : List String
  media_type : String
  publisher_platforms : List String
  spend : String × String
  impressions : String × String
  languages : List String
  ad_snapshot_url : String
  sampleFlag : Bool
  themeTag : String
  activeFlag : Bool
  run_days : ℤ
  topPerformerFlag : Bool
  brandKeyTag : String
  competitorTag : String
  productTag : String
deriving DecidableEq, Repr

/-- `generate_sample_ads(competitor_name, brand_key, count, days_range)`
(sample_data.py lines 179–281); `rand i` is the i-th iteration's draws and
`now` is `datetime.now()` as a timestamp. -/
def generate_sample_ads (competitor_name brand_key : String)
    (rand : Nat → AdRand) (now : ℚ) (count : Nat := 15)
    (days_range : Nat := 90) : List SampleAd :=
  let templates :=
    if brand_key = "bebodywise" then bebodywiseTemplates
    else if brand_key = "manmatters" then manmattersTemplates
    else littlejoysTemplates
  let product_names := productNames competitor_name
  let cn := competitor_name
  let lowered := cn.toLower.replace " " "_"
  let ts := pyInt now
  (List.range count).map (fun i =>
    let r := rand i
    let template := pyChoice templates ⟨"", [], []⟩ r.templateIdx
    let product := pyChoice product_names "" r.productIdx
    let body := ((pyChoice template.bodies "" r.bodyIdx).replace
      "{brand}" cn).replace "{product}" product
    let title := ((pyChoice template.titles "" r.titleIdx).replace
      "{brand}" cn).replace "{product}" product
    let media_type := MEDIA_TYPES.get r.mediaIdx
    let start_date := now - (r.daysAgoStart : ℚ) * 86400
    let is_active := r.activeRoll
    let stop_date :=
      if is_active then none
      else some (start_date + (r.stopOffset : ℚ) * 86400)
    let run_days :=
      if is_active then timedeltaDays (now - start_date)
      else timedeltaDays ((start_date + (r.stopOffset : ℚ) * 86400) - start_date)
    let is_top_performer := decide (run_days > 30)
    { id := s!"sample_{lowered}_{i}_{ts}"
      page_name := cn
      page_id := s!"page_{lowered}"
      ad_creation_time := start_date
      ad_delivery_start_time := start_date
      ad_delivery_stop_time := stop_date
      ad_creative_bodies := [body]
      ad_creative_link_titles := [title]
      ad_creative_link_descriptions :=
        [s!"Shop {product} by {cn} — Free shipping on orders above ₹499"]
      media_type := media_type
      publisher_platforms := r.platformsPick
      spend := pyChoice SPEND_RANGES ("", "") r.spendIdx
      impressions := pyChoice IMPRESSION_RANGES ("", "") r.imprIdx
      languages := ["en"]
      ad_snapshot_url :=
        s!"https://www.facebook.com/ads/archive/render_ad/?id=sample_{i}"
      sampleFlag := true
      themeTag := template.theme
      activeFlag := is_active
      run_days := run_days
      topPerformerFlag := is_top_performer
      brandKeyTag := brand_key
      competitorTag := cn
      productTag := product })

/-! ## Auxiliary objects used by the theorems -/

/-- The ordering contract of `get_ads`: delivery start time non-increasing
(`NULL` last, as SQLite sorts it under `DESC`). -/
def descOrder (a b : AdRow) : Prop :=
  optTimeLe b.ad_delivery_start_time a.ad_delivery_start_time = true

/-- The spec's example batch: 10 ads of which 6 share theme
`"offer_promo"`, with only `IMAGE` and `VIDEO` media observed. -/
def exampleBatch : List PyAd :=
  List.replicate 6
      { theme := some "offer_promo", media_type := some "IMAGE",
        competitor_name := some "Pilgrim" : PyAd } ++
    (List.replicate 2
      { theme := some "ugc_testimonial", media_type := some "VIDEO",
        competitor_name := some "Mamaearth" : PyAd } ++
    List.replicate 2
      { theme := some "doctor_authority", media_type := some "VIDEO",
        competitor_name := some "Beardo" : PyAd })

/-! # Theorems -/

/-- Occurrence in a suffix extends to the whole list. -/
theorem subSeq_append (n a b : List Char) (h : subSeq n b = true) :
    subSeq n (a ++ b) = true := by
  induction a with
  | nil => simpa using h
  | cons c a ih =>
      simp only [List.cons_append, subSeq, Bool.or_eq_true]
      exact Or.inr ih

/-- `strContains` is preserved by prepending text. -/
theorem strContains_append (a b n : String)
    (h : strContains b n = true) : strContains (a ++ b) n = true := by
  unfold strContains at h ⊢
  have hd : (a ++ b).toList = a.toList ++ b.toList := rfl
  rw [hd]
  exact subSeq_append _ _ _ h

/-- C2: for every network outcome, `search_ads` returns (never raises) a
result object together with its fixed sleep-then-request trace; on a clean
response the raw response is returned unchanged, and on a transport
failure, a bad status, an unparseable body, or a response embedding an
`error` payload, the result carries an empty `data` list, empty paging, and
an `error` field describing the failure. -/
theorem search_ads_never_raises_and_normalizes (o : HttpOutcome) :
    ∃ r : ApiResponse,
      search_ads o =
        (PyResult.ok r, [Event.sleep rate_limit_sleep, Event.netCall "/ads_archive"]) ∧
      (∀ resp, o = HttpOutcome.success resp → resp.error = none → r = resp) ∧
      (∀ resp e, o = HttpOutcome.success resp → resp.error = some e →
        r = { data := [], paging := [], error := some e }) ∧
      (∀ m, o = HttpOutcome.transportError m ∨ o = HttpOutcome.badStatus m ∨
          o = HttpOutcome.badJson m →
        r = { data := [], paging := [], error := some m }) := by
  cases o with
  | transportError m =>
      exact ⟨{ data := [], paging := [], error := some m }, rfl,
        (by intro resp h; cases h), (by intro resp e h; cases h),
        (by intro m2 h; rcases h with h | h | h <;> cases h <;> rfl)⟩
  | badStatus m =>
      exact ⟨{ data := [], paging := [], error := some m }, rfl,
        (by intro resp h; cases h), (by intro resp e h; cases h),
        (by intro m2 h; rcases h with h | h | h <;> cases h <;> rfl)⟩
  | badJson m =>
      exact ⟨{ data := [], paging := [], error := some m }, rfl,
        (by intro resp h; cases h), (by intro resp e h; cases h),
        (by intro m2 h; rcases h with h | h | h <;> cases h <;> rfl)⟩
  | success resp =>
      cases herr : resp.error with
      | none =>
          refine ⟨resp, ?_, ?_, ?_, ?_⟩
          · simp [search_ads, tryRequestJson, herr]
          · intro resp2 h; cases h; intro; rfl
          · intro resp2 e h; cases h; intro h2; rw [herr] at h2; cases h2
          · intro m h; rcases h with h | h | h <;> cases h
      | some e =>
          refine ⟨{ data := [], paging := [], error := some e }, ?_, ?_, ?_, ?_⟩
          · simp [search_ads, tryRequestJson, herr]
          · intro resp2 h; cases h; intro h2; rw [herr] at h2; cases h2
          · intro resp2 e2 h; cases h; intro h2; rw [herr] at h2;
            cases h2; rfl
          · intro m h; rcases h with h | h | h <;> cases h

/-- C8 (counterexample): the claim "every network call issued by
`search_ads`, `get_page_id` and `validate_token` is preceded by the fixed
1.0-second rate-limit delay" fails at `validate_token` on a concrete
successful call: its trace is a bare network call with no sleep. -/
theorem validate_token_call_not_rate_limited :
    callsRateLimited (validate_token (MeOutcome.success true)).2 = false := by
  rfl

/-- C8 (amended): `search_ads` and `get_page_id` precede their network call
with the fixed 1.0-second rate-limit delay on every outcome, but
`validate_token` issues its network call with no preceding delay — its
trace contains no sleep at all. -/
theorem rate_limit_sleep_coverage (o1 : HttpOutcome) (o2 : PageOutcome)
    (o3 : MeOutcome) :
    callsRateLimited (search_ads o1).2 = true ∧
    callsRateLimited (get_page_id o2).2 = true ∧
    (validate_token o3).2 = [Event.netCall "/me"] ∧
    callsRateLimited (validate_token o3).2 = false := by
  refine ⟨?_, ?_, ?_, ?_⟩
  · cases o1 with
    | success resp =>
        simp only [search_ads, tryRequestJson]
        cases resp.error.isSome <;> rfl
    | transportError m => rfl
    | badStatus m => rfl
    | badJson m => rfl
  · cases o2 with
    | fail m => rfl
    | success entries => cases entries <;> rfl
  · cases o3 <;> rfl
  · cases o3 <;> rfl

/-- C9: `generate_weekly_brief` on an empty ad list returns a string
containing the literal phrase "No competitor ad data available for this
period" and performs no call to the external language model, whatever the
credential, analysis object, clock strings and model oracle. -/
theorem generate_weekly_brief_empty_ads (key bk bd : String)
    (analysis : BatchAnalysis) (o : AiOutcome) (nowDate nowStamp : String) :
    strContains
      (generate_weekly_brief key bk bd [] analysis o nowDate nowStamp).1
      "No competitor ad data available for this period" = true ∧
    (generate_weekly_brief key bk bd [] analysis o nowDate nowStamp).2 = [] := by
  constructor
  · show strContains
      ("# Weekly Brief — " ++ (toString bd ++
        "\n\nNo competitor ad data available for this period.")) _ = true
    apply strContains_append
    apply strContains_append
    decide
  · rfl

/-- Keys surviving the `if row[0]:` guard are non-empty strings. -/
theorem breakdownOf_keys_ne_empty (col : AdRow → Option String)
    (db : List AdRow) : ∀ p ∈ breakdownOf col db, p.1 ≠ "" := by
  intro p hp
  unfold breakdownOf at hp
  rw [List.mem_filterMap] at hp
  rcases hp with ⟨q, _, hmatch⟩
  cases hq1 : q.1 with
  | none => rw [hq1] at hmatch; cases hmatch
  | some s =>
      rw [hq1] at hmatch
      change (if s = "" then none else some (s, q.2)) = some p at hmatch
      by_cases hs : s = ""
      · rw [if_pos hs] at hmatch; cases hmatch
      · rw [if_neg hs] at hmatch
        cases hmatch
        exact hs

/-- C7: with no brand filter, `get_stats` returns a `media_breakdown` keyed
by exactly IMAGE, VIDEO, CAROUSEL, each value being the count of rows of
that media type (hence 0 when none exist); every `theme_breakdown` and
`competitor_breakdown` key is a non-empty string; and `top_performers`
never exceeds `total_ads`. -/
theorem get_stats_no_brand_filter (db : List AdRow) :
    ((get_stats db none).media_breakdown.map Prod.fst =
      ["IMAGE", "VIDEO", "CAROUSEL"]) ∧
    (∀ mt cnt, (mt, cnt) ∈ (get_stats db none).media_breakdown →
      cnt = db.countP (fun r => r.media_type == some mt)) ∧
    (∀ mt cnt, (mt, cnt) ∈ (get_stats db none).media_breakdown →
      (∀ r ∈ db, r.media_type ≠ some mt) → cnt = 0) ∧
    (∀ p ∈ (get_stats db none).theme_breakdown, p.1 ≠ "") ∧
    (∀ p ∈ (get_stats db none).competitor_breakdown, p.1 ≠ "") ∧
    (get_stats db none).top_performers ≤ (get_stats db none).total_ads := by
  have hcnt : ∀ mt cnt, (mt, cnt) ∈ (get_stats db none).media_breakdown →
      cnt = db.countP (fun r => r.media_type == some mt) := by
    intro mt cnt hmem
    simp only [get_stats, brandFiltered, truthyStr, Bool.false_eq_true,
      if_false, List.mem_map] at hmem
    rcases hmem with ⟨a, _, heq⟩
    cases heq
    rfl
  refine ⟨rfl, hcnt, ?_, ?_, ?_, ?_⟩
  · intro mt cnt hmem hnone
    rw [hcnt mt cnt hmem]
    rw [List.countP_eq_zero]
    intro r hr
    simpa using hnone r hr
  · exact breakdownOf_keys_ne_empty _ _
  · exact breakdownOf_keys_ne_empty _ _
  · exact List.countP_le_length _

/-- Pre-filtering commutes with one truthiness-guarded equality filter. -/
theorem filterStr_filter (v : Option String) (col : AdRow → Option String)
    (p : AdRow → Bool) (l : List AdRow) :
    filterStr v col (l.filter p) = (filterStr v col l).filter p := by
  unfold filterStr
  split
  · exact List.filter_comm _ _ _
  · rfl

/-- C10: a `get_ads` filter argument is applied only when truthy — the empty
string for any of the four string filters, and `0` for `days_back`, behave
exactly like omitting the filter; `is_active = False`, by contrast, is
applied as an equality filter. -/
theorem get_ads_truthiness (db : List AdRow) (bk cn mt th : Option String)
    (ia : Option Bool) (dbk : Option Int) (now : ℚ) (limit : Nat) :
    (get_ads db (some "") cn mt th ia dbk now limit =
      get_ads db none cn mt th ia dbk now limit) ∧
    (get_ads db bk (some "") mt th ia dbk now limit =
      get_ads db bk none mt th ia dbk now limit) ∧
    (get_ads db bk cn (some "") th ia dbk now limit =
      get_ads db bk cn none th ia dbk now limit) ∧
    (get_ads db bk cn mt (some "") ia dbk now limit =
      get_ads db bk cn mt none ia dbk now limit) ∧
    (get_ads db bk cn mt th ia (some 0) now limit =
      get_ads db bk cn mt th ia none now limit) ∧
    (get_ads db bk cn mt th (some false) dbk now limit =
      get_ads (db.filter (fun r => r.is_active == some false))
        bk cn mt th none dbk now limit) := by
  refine ⟨rfl, rfl, rfl, rfl, rfl, ?_⟩
  unfold get_ads filterActive
  congr 2
  rw [filterStr_filter, filterStr_filter, filterStr_filter, filterStr_filter]

theorem optTimeLe_total (a b : Option ℚ) :
    optTimeLe a b = true ∨ optTimeLe b a = true := by
  cases a with
  | none => exact Or.inl rfl
  | some x =>
      cases b with
      | none => exact Or.inr rfl
      | some y =>
          rcases le_total x y with h | h
          · exact Or.inl (by simpa [optTimeLe] using h)
          · exact Or.inr (by simpa [optTimeLe] using h)

theorem optTimeLe_trans (a b c : Option ℚ) (h1 : optTimeLe a b = true)
    (h2 : optTimeLe b c = true) : optTimeLe a c = true := by
  cases a with
  | none => rfl
  | some x =>
      cases b with
      | none => cases h1
      | some y =>
          cases c with
          | none => cases h2
          | some z =>
              simp only [optTimeLe, decide_eq_true_eq] at h1 h2 ⊢
              exact le_trans h1 h2

theorem mem_insertDesc (x a : AdRow) (l : List AdRow) :
    a ∈ insertDesc x l ↔ a = x ∨ a ∈ l := by
  induction l with
  | nil => simp [insertDesc]
  | cons y ys ih =>
      by_cases hc :
        optTimeLe y.ad_delivery_start_time x.ad_delivery_start_time = true
      · simp [insertDesc, hc]
      · simp [insertDesc, hc, ih]
        tauto

theorem sorted_insertDesc (x : AdRow) (l : List AdRow)
    (h : List.Sorted descOrder l) :
    List.Sorted descOrder (insertDesc x l) := by
  induction l with
  | nil => simp [insertDesc]
  | cons y ys ih =>
      rw [List.sorted_cons] at h
      obtain ⟨hy, hys⟩ := h
      by_cases hc :
        optTimeLe y.ad_delivery_start_time x.ad_delivery_start_time = true
      · rw [insertDesc, if_pos hc, List.sorted_cons]
        refine ⟨?_, ?_⟩
        · intro b hb
          rcases List.mem_cons.mp hb with hb | hb
          · subst hb; exact hc
          · exact optTimeLe_trans _ _ _ (hy b hb) hc
        · rw [List.sorted_cons]
          exact ⟨hy, hys⟩
      · rw [insertDesc, if_neg hc, List.sorted_cons]
        refine ⟨?_, ih hys⟩
        intro b hb
        rcases (mem_insertDesc x b ys).mp hb with hb | hb
        · rw [hb]
          rcases optTimeLe_total y.ad_delivery_start_time
            x.ad_delivery_start_time with hcc | hcc
          · exact absurd hcc hc
          · exact hcc
        · exact hy b hb

theorem sorted_sortByStartDesc (l : List AdRow) :
    List.Sorted descOrder (sortByStartDesc l) := by
  induction l with
  | nil => simp [sortByStartDesc]
  | cons x xs ih => exact sorted_insertDesc x _ ih

theorem mem_sortByStartDesc (a : AdRow) (l : List AdRow) :
    a ∈ sortByStartDesc l ↔ a ∈ l := by
  induction l with
  | nil => simp [sortByStartDesc]
  | cons x xs ih =>
      show a ∈ insertDesc x (sortByStartDesc xs) ↔ _
      rw [mem_insertDesc, ih, List.mem_cons]

/-- C6: `get_ads` with `days_back = 30` (any other filters) returns only
ads whose delivery start time is within the last 30 days of the query
time, in non-increasing start-time order, with at most `limit` rows. -/
theorem get_ads_days_back_30 (db : List AdRow) (bk cn mt th : Option String)
    (ia : Option Bool) (now : ℚ) (limit : Nat) :
    (∀ r ∈ get_ads db bk cn mt th ia (some 30) now limit,
      ∃ t, r.ad_delivery_start_time = some t ∧ now - 30 * 86400 ≤ t) ∧
    List.Sorted descOrder (get_ads db bk cn mt th ia (some 30) now limit) ∧
    (get_ads db bk cn mt th ia (some 30) now limit).length ≤ limit := by
  refine ⟨?_, ?_, ?_⟩
  · intro r hr
    unfold get_ads at hr
    have hr2 := List.mem_of_mem_take hr
    rw [mem_sortByStartDesc] at hr2
    unfold filterDays at hr2
    rw [if_pos (by rfl)] at hr2
    have := (List.mem_filter.mp hr2).2
    cases hstart : r.ad_delivery_start_time with
    | none => rw [hstart] at this; cases this
    | some t =>
        rw [hstart] at this
        refine ⟨t, rfl, ?_⟩
        have := of_decide_eq_true this
        simpa using this
  · exact List.Pairwise.sublist (List.take_sublist _ _)
      (sorted_sortByStartDesc _)
  · exact List.length_take_le _ _

/-- A key outside the schema is never written: the whole `ad_data` loop
leaves it untouched on any row. -/
theorem applyData_unknown (d : List (String × Value)) (r : AdsRow)
    (k : String) (hk : k ∉ adSchemaFields) : applyData r d k = r k := by
  induction d generalizing r with
  | nil => rfl
  | cons kv rest ih =>
      show applyData
        (if adSchemaFields.contains kv.1 then rowSet r kv.1 kv.2 else r)
        rest k = r k
      rw [ih]
      by_cases hc : adSchemaFields.contains kv.1 = true
      · rw [if_pos hc]
        have hne : k ≠ kv.1 := by
          intro heq
          exact hk (heq ▸ List.elem_iff.mp hc)
        unfold rowSet
        rw [if_neg hne]
      · rw [if_neg hc]

/-- A key no pair of `ad_data` mentions is left untouched. -/
theorem applyData_not_key (d : List (String × Value)) (r : AdsRow)
    (k : String) (hk : k ∉ d.map Prod.fst) : applyData r d k = r k := by
  induction d generalizing r with
  | nil => rfl
  | cons kv rest ih =>
      have hk1 : k ≠ kv.1 := by
        intro heq
        exact hk (by simp [heq])
      have hk2 : k ∉ rest.map Prod.fst := by
        intro hmem
        exact hk (by simp [hmem])
      show applyData
        (if adSchemaFields.contains kv.1 then rowSet r kv.1 kv.2 else r)
        rest k = r k
      rw [ih _ hk2]
      by_cases hc : adSchemaFields.contains kv.1 = true
      · rw [if_pos hc]
        unfold rowSet
        rw [if_neg hk1]
      · rw [if_neg hc]

/-- A schema key present in `ad_data` (whose keys repeat nowhere, as in a
Python dict) ends up written with its value — on both the update and the
insert path, which share this loop. -/
theorem applyData_known (d : List (String × Value)) (r : AdsRow)
    (k : String) (v : Value) (hnd : (d.map Prod.fst).Nodup)
    (hmem : (k, v) ∈ d) (hks : k ∈ adSchemaFields) :
    applyData r d k = v := by
  induction d generalizing r with
  | nil => cases hmem
  | cons kv rest ih =>
      rw [List.map_cons, List.nodup_cons] at hnd
      obtain ⟨hnotin, hndrest⟩ := hnd
      rcases List.mem_cons.mp hmem with hkv | hmemrest
      · have hkrest : k ∉ rest.map Prod.fst := by
          rw [← hkv] at hnotin
          exact hnotin
        show applyData
          (if adSchemaFields.contains kv.1 then rowSet r kv.1 kv.2 else r)
          rest k = v
        rw [applyData_not_key rest _ k hkrest]
        have hc : adSchemaFields.contains kv.1 = true := by
          rw [← hkv]
          exact List.elem_iff.mpr hks
        rw [if_pos hc, ← hkv]
        unfold rowSet
        rw [if_pos rfl]
      · exact ih _ hndrest hmemrest

/-- A `dictGet` hit is a member pair. -/
theorem dictGet_mem (d : List (String × Value)) (k : String) (v : Value)
    (h : dictGet d k = some v) : (k, v) ∈ d := by
  unfold dictGet at h
  cases hf : d.find? (fun kv => kv.1 = k) with
  | none => rw [hf] at h; cases h
  | some kv =>
      rw [hf] at h
      cases h
      have hmem := List.mem_of_find?_eq_some hf
      have hkey := List.find?_some hf
      have : kv.1 = k := by simpa using hkey
      have : kv = (k, kv.2) := by
        rw [← this]
      rw [← this]
      exact hmem

/-- Zero matching rows means no member matches. -/
theorem idCount_zero_not_mem (db : List AdsRow) (idv : Value)
    (h : idCount db idv = 0) : ∀ r ∈ db, ¬ r "id" = idv := by
  intro r hr heq
  unfold idCount at h
  rw [List.length_eq_zero] at h
  have : r ∈ db.filter (fun r => decide (r "id" = idv)) :=
    List.mem_filter.mpr ⟨hr, by simpa using heq⟩
  rw [h] at this
  cases this

/-- After an upsert whose data sets `id` to `idv`, exactly one row carries
that id, provided at most one did before (the id column is the table's
primary key). -/
theorem idCount_upsertList (idv : Value) (d : List (String × Value))
    (db : List AdsRow) (hdb : idCount db idv ≤ 1)
    (hset : ∀ r : AdsRow, applyData r d "id" = idv) :
    idCount (upsertList idv d db) idv = 1 := by
  induction db with
  | nil =>
      show idCount [applyData emptyRow d] idv = 1
      unfold idCount
      rw [List.filter_cons]
      rw [if_pos (by simpa using hset emptyRow)]
      rfl
  | cons r rs ih =>
      by_cases hr : r "id" = idv
      · rw [upsertList, if_pos hr]
        unfold idCount at hdb ⊢
        rw [List.filter_cons] at hdb ⊢
        rw [if_pos (by simpa using hr)] at hdb
        rw [if_pos (by simpa using hset r)]
        simp only [List.length_cons] at hdb ⊢
        have h0 := Nat.le_zero.mp (Nat.succ_le_succ_iff.mp hdb)
        rw [h0]
      · rw [upsertList, if_neg hr]
        unfold idCount at hdb ⊢
        rw [List.filter_cons] at hdb ⊢
        rw [if_neg (by simpa using hr)] at hdb ⊢
        exact ih hdb

/-- Every row of the upserted list that carries the id has the upsert's
`ad_body` value (assuming the pre-state had at most one such row). -/
theorem upsertList_body (idv v2 : Value) (d : List (String × Value))
    (db : List AdsRow) (hdb : idCount db idv ≤ 1)
    (hbody : ∀ r : AdsRow, applyData r d "ad_body" = v2) :
    ∀ r ∈ upsertList idv d db, r "id" = idv → r "ad_body" = v2 := by
  induction db with
  | nil =>
      intro r hr _
      rcases List.mem_singleton.mp hr with rfl
      exact hbody emptyRow
  | cons r0 rs ih =>
      intro r hr hid
      by_cases hr0 : r0 "id" = idv
      · rw [upsertList, if_pos hr0] at hr
        rcases List.mem_cons.mp hr with rfl | hmem
        · exact hbody r0
        · exfalso
          unfold idCount at hdb
          rw [List.filter_cons, if_pos (by simpa using hr0)] at hdb
          simp only [List.length_cons] at hdb
          have hz : idCount rs idv = 0 :=
            Nat.le_zero.mp (Nat.succ_le_succ_iff.mp hdb)
          exact idCount_zero_not_mem rs idv hz r hmem hid
      · rw [upsertList, if_neg hr0] at hr
        rcases List.mem_cons.mp hr with rfl | hmem
        · exact absurd hid hr0
        · have hdb' : idCount rs idv ≤ 1 := by
            unfold idCount at hdb ⊢
            rw [List.filter_cons, if_neg (by simpa using hr0)] at hdb
            exact hdb
          exact ih hdb' r hmem hid

/-- C1: upserting the same id twice (second time with `ad_body = v2`)
starting from a store whose primary-key invariant holds leaves exactly one
row with that id, carrying the second call's `ad_body`; and on both the
update and the insert path, keys outside the `AdRecord` schema are silently
ignored while schema keys present in the data are written. -/
theorem upsert_ad_twice_last_write_wins (db : List AdsRow)
    (d1 d2 : List (String × Value)) (idv v2 : Value)
    (hdb : idCount db idv ≤ 1)
    (h1 : dictGet d1 "id" = some idv)
    (h2 : dictGet d2 "id" = some idv)
    (hk1 : (d1.map Prod.fst).Nodup)
    (hk2 : (d2.map Prod.fst).Nodup)
    (hbody : dictGet d2 "ad_body" = some v2) :
    ∃ db1 db2,
      upsert_ad db d1 = some db1 ∧
      upsert_ad db1 d2 = some db2 ∧
      idCount db2 idv = 1 ∧
      (∀ r ∈ db2, r "id" = idv → r "ad_body" = v2) ∧
      (∀ (r : AdsRow) (d : List (String × Value)) (k : String),
        k ∉ adSchemaFields → applyData r d k = r k) ∧
      (∀ (r : AdsRow) (d : List (String × Value)) (k : String) (v : Value),
        (d.map Prod.fst).Nodup → (k, v) ∈ d → k ∈ adSchemaFields →
        applyData r d k = v) := by
  have hid1 : ∀ r : AdsRow, applyData r d1 "id" = idv := fun r =>
    applyData_known d1 r "id" idv hk1 (dictGet_mem d1 "id" idv h1)
      (by decide)
  have hid2 : ∀ r : AdsRow, applyData r d2 "id" = idv := fun r =>
    applyData_known d2 r "id" idv hk2 (dictGet_mem d2 "id" idv h2)
      (by decide)
  have hbody2 : ∀ r : AdsRow, applyData r d2 "ad_body" = v2 := fun r =>
    applyData_known d2 r "ad_body" v2 hk2 (dictGet_mem d2 "ad_body" v2 hbody)
      (by decide)
  refine ⟨upsertList idv d1 db, upsertList idv d2 (upsertList idv d1 db),
    ?_, ?_, ?_, ?_, ?_, ?_⟩
  · unfold upsert_ad
    rw [h1]
    rfl
  · unfold upsert_ad
    rw [h2]
    rfl
  · exact idCount_upsertList idv d2 _
      (le_of_eq (idCount_upsertList idv d1 db hdb hid1)) hid2
  · exact upsertList_body idv v2 d2 _
      (le_of_eq (idCount_upsertList idv d1 db hdb hid1)) hbody2
  · intro r d k hk
    exact applyData_unknown d r k hk
  · intro r d k v hnd hmem hks
    exact applyData_known d r k v hnd hmem hks

/-- C1 witness: a concrete double upsert — second data also carries the
non-schema key `"spend"` — evaluated from the empty store. -/
theorem upsert_ad_twice_last_write_wins_witness :
    ∃ db1 db2,
      upsert_ad []
          [("id", Value.vstr "a"), ("ad_body", Value.vstr "x")] = some db1 ∧
      upsert_ad db1
          [("id", Value.vstr "a"), ("ad_body", Value.vstr "y"),
           ("spend", Value.vstr "z")] = some db2 ∧
      idCount db2 (Value.vstr "a") = 1 ∧
      (∀ r ∈ db2, r "id" = Value.vstr "a" → r "ad_body" = Value.vstr "y") ∧
      (∀ (r : AdsRow) (d : List (String × Value)) (k : String),
        k ∉ adSchemaFields → applyData r d k = r k) ∧
      (∀ (r : AdsRow) (d : List (String × Value)) (k : String) (v : Value),
        (d.map Prod.fst).Nodup → (k, v) ∈ d → k ∈ adSchemaFields →
        applyData r d k = v) :=
  upsert_ad_twice_last_write_wins []
    [("id", Value.vstr "a"), ("ad_body", Value.vstr "x")]
    [("id", Value.vstr "a"), ("ad_body", Value.vstr "y"),
     ("spend", Value.vstr "z")]
    (Value.vstr "a") (Value.vstr "y")
    (by decide) (by decide) (by decide) (by decide) (by decide) (by decide)

/-- C3: whenever no credential is configured, or the model call fails, or
the (possibly fence-stripped) model output does not parse, `classify_ad`
returns exactly the fixed fallback object — `theme`, `sentiment` and
`cta_type` all `"unknown"`, `creative_angle` `"Could not analyze"`, the
three booleans false. The only fact assumed of `json.loads` is that the
empty string does not parse. The function is total, so it never raises. -/
theorem classify_ad_fallback_object (parse : String → Option Classification)
    (key : String) (o : AiOutcome) (hparse : parse "" = none)
    (hcase : key = "" ∨ (∃ m, o = AiOutcome.failure m) ∨
      parse (cleanedOf (call_ai key o).1) = none) :
    classify_ad parse key o = fallbackClassification := by
  rcases hcase with hk | ⟨m, hm⟩ | hp
  · subst hk
    unfold classify_ad
    rw [show cleanedOf (call_ai "" o).1 = "" from rfl, hparse]
  · subst hm
    unfold classify_ad
    have h1 : (call_ai key (AiOutcome.failure m)).1 = "" := by
      unfold call_ai
      split
      · rfl
      · rfl
    rw [h1, show cleanedOf "" = "" from rfl, hparse]
  · unfold classify_ad
    rw [hp]

/-- C3 witness: empty credential, empty ad text oracle, never-succeeding
parser. -/
theorem classify_ad_fallback_object_witness :
    classify_ad (fun _ => (none : Option Classification)) ""
      (AiOutcome.success (some "")) = fallbackClassification :=
  classify_ad_fallback_object (fun _ => none) "" (AiOutcome.success (some ""))
    rfl (Or.inl rfl)

/-- `timedelta(days=d).days = d` for a whole-day difference. -/
theorem timedeltaDays_nat_mul (d : Nat) :
    timedeltaDays ((d : ℚ) * 86400) = (d : ℤ) := by
  unfold timedeltaDays
  rw [mul_div_cancel_right₀ _ (by norm_num : (86400 : ℚ) ≠ 0)]
  exact Int.floor_natCast d

/-- C5: `generate_sample_ads(..., count=15)` returns exactly 15 records;
every record's media type is drawn from IMAGE/VIDEO/CAROUSEL; its
`run_days` is non-negative and equals the day count from delivery start to
now when the ad is active, and from start to stop when inactive; and the
top-performer flag holds exactly when `run_days` exceeds 30. -/
theorem generate_sample_ads_spec (cn bk : String) (rand : Nat → AdRand)
    (now : ℚ) :
    (generate_sample_ads cn bk rand now 15 90).length = 15 ∧
    (∀ ad ∈ generate_sample_ads cn bk rand now 15 90,
      ad.media_type ∈ MEDIA_TYPES ∧
      0 ≤ ad.run_days ∧
      ad.run_days = (if ad.activeFlag then
          timedeltaDays (now - ad.ad_delivery_start_time)
        else
          timedeltaDays ((ad.ad_delivery_stop_time.getD 0) -
            ad.ad_delivery_start_time)) ∧
      (ad.topPerformerFlag = true ↔ 30 < ad.run_days)) := by
  constructor
  · simp [generate_sample_ads]
  · intro ad had
    simp only [generate_sample_ads, List.mem_map, List.mem_range] at had
    obtain ⟨i, hi, rfl⟩ := had
    cases hact : (rand i).activeRoll with
    | true =>
        refine ⟨List.get_mem MEDIA_TYPES (rand i).mediaIdx.1
            (rand i).mediaIdx.2, ?_, ?_, ?_⟩
        · dsimp only
          simp only [eq_self_iff_true, if_true]
          rw [show now - (now - ((rand i).daysAgoStart : ℚ) * 86400) =
            ((rand i).daysAgoStart : ℚ) * 86400 from by ring]
          rw [timedeltaDays_nat_mul]
          exact Int.natCast_nonneg _
        · dsimp only
          simp only [eq_self_iff_true, if_true]
        · dsimp only
          simp only [eq_self_iff_true, if_true, decide_eq_true_iff]
    | false =>
        refine ⟨List.get_mem MEDIA_TYPES (rand i).mediaIdx.1
            (rand i).mediaIdx.2, ?_, ?_, ?_⟩
        · dsimp only
          simp only [Bool.false_eq_true, if_false]
          rw [show (now - ((rand i).daysAgoStart : ℚ) * 86400 +
              ((rand i).stopOffset : ℚ) * 86400) -
              (now - ((rand i).daysAgoStart : ℚ) * 86400) =
              ((rand i).stopOffset : ℚ) * 86400 from by ring]
          rw [timedeltaDays_nat_mul]
          exact Int.natCast_nonneg _
        · dsimp only
          simp only [Bool.false_eq_true, if_false, Option.getD_some]
        · dsimp only
          simp only [Bool.false_eq_true, if_false, decide_eq_true_iff]

/-- Bumping a key either leaves the key set unchanged (key present) or
appends the key. -/
theorem bump_map_fst (c : List (String × Nat)) (k : String) :
    (bump c k).map Prod.fst =
      if k ∈ c.map Prod.fst then c.map Prod.fst
      else c.map Prod.fst ++ [k] := by
  induction c with
  | nil => simp [bump]
  | cons q rest ih =>
      by_cases hq : q.1 = k
      · simp [bump, hq]
      · have hq2 : ¬ k = q.1 := fun hh => hq hh.symm
        by_cases hk : k ∈ rest.map Prod.fst
        · simp [bump, hq, hq2, hk, ih]
        · simp [bump, hq, hq2, hk, ih]

/-- The value stored under each key after a bump. -/
theorem mem_bump_val (k : String) (f : String → Nat) :
    ∀ (c : List (String × Nat)),
    (c.map Prod.fst).Nodup →
    (∀ p ∈ c, p.2 = f p.1) →
    (k ∉ c.map Prod.fst → f k = 0) →
    ∀ p ∈ bump c k, p.2 = (if p.1 = k then f p.1 + 1 else f p.1) := by
  intro c
  induction c with
  | nil =>
      intro _ _ hzero p hp
      rcases List.mem_singleton.mp hp with rfl
      simp [hzero (by simp)]
  | cons q rest ih =>
      intro hnd hcount hzero p hp
      rw [List.map_cons, List.nodup_cons] at hnd
      obtain ⟨hqnotin, hndrest⟩ := hnd
      by_cases hqk : q.1 = k
      · rw [bump, if_pos hqk] at hp
        rcases List.mem_cons.mp hp with rfl | hmem
        · rw [if_pos hqk]
          rw [hcount q (by simp)]
        · have hne : p.1 ≠ k := by
            intro heq
            exact hqnotin (hqk ▸ heq ▸ List.mem_map_of_mem Prod.fst hmem)
          rw [if_neg hne]
          exact hcount p (List.mem_cons_of_mem q hmem)
      · rw [bump, if_neg hqk] at hp
        rcases List.mem_cons.mp hp with rfl | hmem
        · rw [if_neg hqk]
          exact hcount q (by simp)
        · refine ih hndrest
            (fun p2 hp2 => hcount p2 (List.mem_cons_of_mem q hp2)) ?_ p hmem
          intro hknotin
          refine hzero ?_
          rw [List.map_cons]
          intro hmem2
          rcases List.mem_cons.mp hmem2 with heq | hmem2
          · exact hqk heq.symm
          · exact hknotin hmem2

/-- The running invariant of `Counter(keys)` built by the fold: keys are
distinct, each entry holds its key's running count, and the key set is the
set of seen elements. -/
theorem foldl_bump_spec (keys : List String) :
    ∀ (c : List (String × Nat)) (f : String → Nat),
    (c.map Prod.fst).Nodup →
    (∀ p ∈ c, p.2 = f p.1) →
    (∀ k, k ∉ c.map Prod.fst → f k = 0) →
    ((keys.foldl bump c).map Prod.fst).Nodup ∧
    (∀ p ∈ keys.foldl bump c, p.2 = f p.1 + keys.count p.1) ∧
    (∀ k, k ∈ (keys.foldl bump c).map Prod.fst ↔
      k ∈ c.map Prod.fst ∨ k ∈ keys) := by
  induction keys with
  | nil =>
      intro c f hnd hcount _
      refine ⟨hnd, fun p hp => ?_, fun k => by simp⟩
      simpa using hcount p hp
  | cons k rest ih =>
      intro c f hnd hcount hzero
      have hkeys : (bump c k).map Prod.fst =
          if k ∈ c.map Prod.fst then c.map Prod.fst
          else c.map Prod.fst ++ [k] := bump_map_fst c k
      have hnd' : ((bump c k).map Prod.fst).Nodup := by
        rw [hkeys]
        by_cases hk : k ∈ c.map Prod.fst
        · rw [if_pos hk]; exact hnd
        · rw [if_neg hk]
          simp [List.nodup_append, hnd, hk]
      have hcount' : ∀ p ∈ bump c k,
          p.2 = (fun x => if x = k then f x + 1 else f x) p.1 :=
        mem_bump_val k f c hnd hcount (hzero k)
      have hzero' : ∀ k2, k2 ∉ (bump c k).map Prod.fst →
          (fun x => if x = k then f x + 1 else f x) k2 = 0 := by
        intro k2 hk2
        rw [hkeys] at hk2
        by_cases hk : k ∈ c.map Prod.fst
        · rw [if_pos hk] at hk2
          have hne : k2 ≠ k := fun heq => hk2 (heq ▸ hk)
          simp only [if_neg hne]
          exact hzero k2 hk2
        · rw [if_neg hk] at hk2
          simp only [List.mem_append, List.mem_singleton, not_or] at hk2
          simp only [if_neg hk2.2]
          exact hzero k2 hk2.1
      obtain ⟨ih1, ih2, ih3⟩ := ih (bump c k)
        (fun x => if x = k then f x + 1 else f x) hnd' hcount' hzero'
      refine ⟨ih1, ?_, ?_⟩
      · intro p hp
        have hv := ih2 p hp
        rw [hv, List.count_cons]
        by_cases hpk : p.1 = k
        · have hks : (k == p.1) = true := beq_iff_eq.mpr hpk.symm
          simp only [if_pos hpk, hks, if_true]
          omega
        · have hks : (k == p.1) = false :=
            beq_eq_false_iff_ne.mpr (Ne.symm hpk)
          simp only [if_neg hpk, hks, Bool.false_eq_true, if_false]
          omega
      · intro k2
        rw [show (k :: rest).foldl bump c = rest.foldl bump (bump c k)
          from rfl]
        rw [ih3 k2, hkeys]
        by_cases hk : k ∈ c.map Prod.fst
        · rw [if_pos hk]
          constructor
          · intro hc
            rcases hc with hc | hc
            · exact Or.inl hc
            · exact Or.inr (List.mem_cons_of_mem k hc)
          · intro hc
            rcases hc with hc | hc
            · exact Or.inl hc
            · rcases List.mem_cons.mp hc with rfl | hc
              · exact Or.inl hk
              · exact Or.inr hc
        · rw [if_neg hk]
          simp only [List.mem_append, List.mem_singleton, List.mem_cons]
          tauto

/-- Each `Counter` entry holds the exact multiplicity of its key. -/
theorem counterOf_count (l : List String) (k : String) (n : Nat)
    (h : (k, n) ∈ counterOf l) : n = l.count k := by
  obtain ⟨_, h2, _⟩ := foldl_bump_spec l [] (fun _ => 0) (by simp)
    (by simp) (by simp)
  simpa using h2 (k, n) h

/-- The `Counter`'s key set is exactly the set of seen values. -/
theorem mem_counterOf_keys (l : List String) (k : String) :
    k ∈ (counterOf l).map Prod.fst ↔ k ∈ l := by
  obtain ⟨_, _, h3⟩ := foldl_bump_spec l [] (fun _ => 0) (by simp)
    (by simp) (by simp)
  simpa using h3 k

/-- A non-empty stream yields a non-empty counter. -/
theorem counterOf_ne_nil (l : List String) (h : l ≠ []) :
    counterOf l ≠ [] := by
  obtain ⟨a, ha⟩ := List.exists_mem_of_ne_nil l h
  intro hnil
  have := (mem_counterOf_keys l a).mpr ha
  rw [hnil] at this
  cases this

/-- The fold inside `most_common(1)[0]`: the result is the accumulator or a
list member, dominates the accumulator, and dominates every member. -/
theorem foldl_max_spec (rest : List (String × Nat)) (p : String × Nat) :
    (rest.foldl (fun best q => if best.2 < q.2 then q else best) p = p ∨
      rest.foldl (fun best q => if best.2 < q.2 then q else best) p ∈ rest) ∧
    p.2 ≤ (rest.foldl (fun best q => if best.2 < q.2 then q else best) p).2 ∧
    (∀ q ∈ rest,
      q.2 ≤ (rest.foldl (fun best q => if best.2 < q.2 then q else best) p).2) := by
  induction rest generalizing p with
  | nil => exact ⟨Or.inl rfl, le_refl _, fun q hq => absurd hq (by simp)⟩
  | cons q rest ih =>
      obtain ⟨ihm, ihle, ihall⟩ := ih (if p.2 < q.2 then q else p)
      refine ⟨?_, ?_, ?_⟩
      · rcases ihm with heq | hmem
        · rw [show (q :: rest).foldl
            (fun best q => if best.2 < q.2 then q else best) p =
            rest.foldl (fun best q => if best.2 < q.2 then q else best)
              (if p.2 < q.2 then q else p) from rfl, heq]
          by_cases hlt : p.2 < q.2
          · rw [if_pos hlt]; exact Or.inr (by simp)
          · rw [if_neg hlt]; exact Or.inl rfl
        · exact Or.inr (List.mem_cons_of_mem q hmem)
      · refine le_trans ?_ ihle
        by_cases hlt : p.2 < q.2
        · rw [if_pos hlt]; exact le_of_lt hlt
        · rw [if_neg hlt]
      · intro q2 hq2
        rcases List.mem_cons.mp hq2 with rfl | hmem
        · refine le_trans ?_ ihle
          by_cases hlt : p.2 < q2.2
          · rw [if_pos hlt]
          · rw [if_neg hlt]; exact le_of_not_lt hlt
        · exact ihall q2 hmem

/-- `most_common(1)[0]` of a non-empty counter is a member of maximal
count. -/
theorem mostCommon1_spec (l : List (String × Nat)) (dflt : String × Nat)
    (h : l ≠ []) :
    mostCommon1 l dflt ∈ l ∧ ∀ q ∈ l, q.2 ≤ (mostCommon1 l dflt).2 := by
  cases l with
  | nil => exact absurd rfl h
  | cons p rest =>
      obtain ⟨hm, hle, hall⟩ := foldl_max_spec rest p
      constructor
      · rcases hm with heq | hmem
        · rw [show mostCommon1 (p :: rest) dflt =
            rest.foldl (fun best q => if best.2 < q.2 then q else best) p
            from rfl, heq]
          simp
        · exact List.mem_cons_of_mem p hmem
      · intro q hq
        rcases List.mem_cons.mp hq with rfl | hmem
        · exact hle
        · exact hall q hmem

/-- C4: on any non-empty batch, the rule-based fallback analysis emits
exactly five insights typed `trend, trend, opportunity, top_performer,
warning` in that order; the dominant theme is a maximal-count member of the
theme counter, its count is the number of ads resolving to that theme, and
the first insight's detail reports that theme with its rounded percentage
share of the whole list; `underused_format` is the missing member of
{IMAGE, VIDEO, CAROUSEL} when exactly one is unobserved, and defaults to
CAROUSEL when all three are observed. -/
theorem fallback_batch_analysis_insights (ads : List PyAd)
    (brand_display : String) (h : ads ≠ []) :
    ((fallback_batch_analysis ads brand_display).insights.map Insight.type =
      ["trend", "trend", "opportunity", "top_performer", "warning"]) ∧
    (∃ cnt : Nat,
      ((fallback_batch_analysis ads brand_display).dominant_theme, cnt) ∈
        counterOf (ads.map themeOfAd) ∧
      cnt = (ads.map themeOfAd).count
        (fallback_batch_analysis ads brand_display).dominant_theme ∧
      (∀ q ∈ counterOf (ads.map themeOfAd), q.2 ≤ cnt) ∧
      ((fallback_batch_analysis ads brand_display).insights.head?.map
          Insight.detail =
        some (dominantThemeDetail (pctOf cnt ads.length)
          ((fallback_batch_analysis ads
            brand_display).dominant_theme.replace "_" " ")))) ∧
    ((∀ f ∈ MEDIA_TYPES, f ∈ ads.map mediaOfAd) →
      (fallback_batch_analysis ads brand_display).underused_format =
        "CAROUSEL") ∧
    (∀ u ∈ MEDIA_TYPES, u ∉ ads.map mediaOfAd →
      (∀ f ∈ MEDIA_TYPES, f ≠ u → f ∈ ads.map mediaOfAd) →
      (fallback_batch_analysis ads brand_display).underused_format = u) := by
  have hthemes : ads.map themeOfAd ≠ [] := by
    intro hnil
    exact h (List.map_eq_nil_iff.mp hnil)
  have hcne : counterOf (ads.map themeOfAd) ≠ [] :=
    counterOf_ne_nil _ hthemes
  obtain ⟨hmem, hmax⟩ :=
    mostCommon1_spec (counterOf (ads.map themeOfAd)) ("unknown", 0) hcne
  have hcont : ∀ f, f ∈ ads.map mediaOfAd →
      (((counterOf (ads.map mediaOfAd)).map Prod.fst).contains f) = true :=
    fun f hf => List.elem_iff.mpr ((mem_counterOf_keys _ f).mpr hf)
  have hnotcont : ∀ f, f ∉ ads.map mediaOfAd →
      (((counterOf (ads.map mediaOfAd)).map Prod.fst).contains f) = false := by
    intro f hf
    cases hb : ((counterOf (ads.map mediaOfAd)).map Prod.fst).contains f with
    | false => rfl
    | true =>
        exact absurd ((mem_counterOf_keys _ f).mp (List.elem_iff.mp hb)) hf
  refine ⟨rfl,
    ⟨(mostCommon1 (counterOf (ads.map themeOfAd)) ("unknown", 0)).2,
      hmem,
      counterOf_count (ads.map themeOfAd)
        (mostCommon1 (counterOf (ads.map themeOfAd)) ("unknown", 0)).1
        (mostCommon1 (counterOf (ads.map themeOfAd)) ("unknown", 0)).2 hmem,
      hmax, rfl⟩, ?_, ?_⟩
  · intro hobs
    have hI := hcont "IMAGE" (hobs "IMAGE" (by simp [MEDIA_TYPES]))
    have hV := hcont "VIDEO" (hobs "VIDEO" (by simp [MEDIA_TYPES]))
    have hC := hcont "CAROUSEL" (hobs "CAROUSEL" (by simp [MEDIA_TYPES]))
    simp only [fallback_batch_analysis, MEDIA_TYPES, List.filter_cons,
      List.filter_nil, hI, hV, hC, Bool.not_true, Bool.false_eq_true,
      if_false, List.headD_nil]
  · intro u humem hunot hothers
    have hu : u = "IMAGE" ∨ u = "VIDEO" ∨ u = "CAROUSEL" := by
      simpa [MEDIA_TYPES] using humem
    rcases hu with rfl | rfl | rfl
    · have hV := hcont "VIDEO"
        (hothers "VIDEO" (by simp [MEDIA_TYPES]) (by decide))
      have hC := hcont "CAROUSEL"
        (hothers "CAROUSEL" (by simp [MEDIA_TYPES]) (by decide))
      have hU := hnotcont "IMAGE" hunot
      simp only [fallback_batch_analysis, MEDIA_TYPES, List.filter_cons,
        List.filter_nil, hV, hC, hU, Bool.not_true, Bool.not_false,
        Bool.false_eq_true, if_false, if_true, List.headD_cons]
    · have hI := hcont "IMAGE"
        (hothers "IMAGE" (by simp [MEDIA_TYPES]) (by decide))
      have hC := hcont "CAROUSEL"
        (hothers "CAROUSEL" (by simp [MEDIA_TYPES]) (by decide))
      have hU := hnotcont "VIDEO" hunot
      simp only [fallback_batch_analysis, MEDIA_TYPES, List.filter_cons,
        List.filter_nil, hI, hC, hU, Bool.not_true, Bool.not_false,
        Bool.false_eq_true, if_false, if_true, List.headD_cons]
    · have hI := hcont "IMAGE"
        (hothers "IMAGE" (by simp [MEDIA_TYPES]) (by decide))
      have hV := hcont "VIDEO"
        (hothers "VIDEO" (by simp [MEDIA_TYPES]) (by decide))
      have hU := hnotcont "CAROUSEL" hunot
      simp only [fallback_batch_analysis, MEDIA_TYPES, List.filter_cons,
        List.filter_nil, hI, hV, hU, Bool.not_true, Bool.not_false,
        Bool.false_eq_true, if_false, if_true, List.headD_cons]

/-- C4 witness: the spec's 10-ad example (6 × offer_promo, media only IMAGE
and VIDEO) instantiates the theorem; the concrete outputs — dominant theme
`offer_promo`, a 60% first-insight detail, `underused_format = CAROUSEL` —
are also evaluated directly. -/
theorem fallback_batch_analysis_insights_witness :
    (((fallback_batch_analysis exampleBatch "Be Bodywise").insights.map
        Insight.type =
      ["trend", "trend", "opportunity", "top_performer", "warning"]) ∧
    (∃ cnt : Nat,
      ((fallback_batch_analysis exampleBatch "Be Bodywise").dominant_theme,
          cnt) ∈ counterOf (exampleBatch.map themeOfAd) ∧
      cnt = (exampleBatch.map themeOfAd).count
        (fallback_batch_analysis exampleBatch "Be Bodywise").dominant_theme ∧
      (∀ q ∈ counterOf (exampleBatch.map themeOfAd), q.2 ≤ cnt) ∧
      ((fallback_batch_analysis exampleBatch "Be Bodywise").insights.head?.map
          Insight.detail =
        some (dominantThemeDetail (pctOf cnt exampleBatch.length)
          ((fallback_batch_analysis exampleBatch
            "Be Bodywise").dominant_theme.replace "_" " ")))) ∧
    ((∀ f ∈ MEDIA_TYPES, f ∈ exampleBatch.map mediaOfAd) →
      (fallback_batch_analysis exampleBatch "Be Bodywise").underused_format =
        "CAROUSEL") ∧
    (∀ u ∈ MEDIA_TYPES, u ∉ exampleBatch.map mediaOfAd →
      (∀ f ∈ MEDIA_TYPES, f ≠ u → f ∈ exampleBatch.map mediaOfAd) →
      (fallback_batch_analysis exampleBatch "Be Bodywise").underused_format =
        u)) ∧
    (fallback_batch_analysis exampleBatch "Be Bodywise").dominant_theme =
      "offer_promo" ∧
    (fallback_batch_analysis exampleBatch "Be Bodywise").underused_format =
      "CAROUSEL" ∧
    pctOf ((exampleBatch.map themeOfAd).count "offer_promo")
      exampleBatch.length = 60 :=
  ⟨fallback_batch_analysis_insights exampleBatch "Be Bodywise"
      (by decide), by decide, by decide, by
    rw [show (exampleBatch.map themeOfAd).count "offer_promo" = 6 by decide,
      show exampleBatch.length = 10 by decide]
    norm_num [pctOf, pyRound]⟩

end Warroom
